import Mathlib

/-!
Verification development for the `antstackio/strandsagent` MCP lambda servers.

The embedding covers:
* `src/lambda/query/query_agent_handler.py` — free-text classification and
  result aggregation (`analyze_business_request`), graceful-degradation
  narrative generation (`generate_business_insights`);
* `src/lambda/query/mcp_handler.py` — the business-data MCP dispatcher
  (`Query.handle_tools_call`, `Query.process_request`);
* `src/lambda/weather/mcp_handler.py` — the weather MCP dispatcher
  (`Weather.handle_request`, `Weather.process_request`).

External collaborators (the PostgreSQL data provider reached through the
`execute_*_query` bodies, the OpenAI narrative generator, the weather agent)
are modelled as oracle function parameters; everything the repository itself
computes is translated directly.
-/

/-- Python `needle in hay` prefix step: does `needle` occur at the head of the
character list? -/
def startsWithL : List Char → List Char → Bool
  | [], _ => true
  | _ :: _, [] => false
  | a :: as, b :: bs => a == b && startsWithL as bs

/-- Python `needle in hay` on character lists: contiguous-substring test. -/
def containsL (needle : List Char) : List Char → Bool
  | [] => startsWithL needle []
  | b :: bs => startsWithL needle (b :: bs) || containsL needle bs

/-- Python's `needle in hay` membership test for strings. -/
def substrOf (needle hay : String) : Bool :=
  containsL needle.toList hay.toList

/-- Python `str.lower()`. `Char.toLower` only folds ASCII letters; every
string the repository's keyword tables and tests use is ASCII, where the two
agree. -/
def pyLower (s : String) : String :=
  String.mk (s.toList.map Char.toLower)

/-- `any(word in prompt_lower for word in [...])` from
`analyze_business_request`. -/
def anyKeyword (ws : List String) (s : String) : Bool :=
  ws.any (fun w => substrOf w s)

/-- Keyword table of the revenue branch, `query_agent_handler.py` line 273. -/
def revenueKeywords : List String :=
  ["revenue", "sales", "performance", "trends", "summary", "business"]

/-- Keyword table of the product branch, `query_agent_handler.py` line 278. -/
def productKeywords : List String :=
  ["product", "bestseller", "category", "inventory", "items"]

/-- Keyword table of the customer branch, `query_agent_handler.py` line 283. -/
def customerKeywords : List String :=
  ["customer", "order", "high value", "vip", "spending"]

/-- The `min_amount` heuristic of `analyze_business_request`
(`query_agent_handler.py` lines 286-294): only runs when `'$'` occurs in the
raw prompt or `'over'` occurs in the lowercased prompt; then the literal
substring `"200"` is tried before `"500"` on the raw prompt. -/
def extractMinAmount (user_prompt : String) : Option Nat :=
  if substrOf "$" user_prompt || substrOf "over" (pyLower user_prompt) then
    if substrOf "200" user_prompt then some 200
    else if substrOf "500" user_prompt then some 500
    else none
  else none

/-- The three canonical query categories of the spec's data model. -/
inductive Category where
  | revenue
  | product
  | customer
  deriving DecidableEq, Repr

/-- Name appended to `queries_executed` for each category
(`query_agent_handler.py` lines 276, 281, 297). -/
def Category.queryName : Category → String
  | .revenue => "revenue_summary"
  | .product => "product_sales"
  | .customer => "customer_orders"

/-- Key under which each category's provider output is stored in
`results['data']` (`query_agent_handler.py` lines 275, 280, 296). -/
def Category.dataKey : Category → String
  | .revenue => "revenue"
  | .product => "products"
  | .customer => "customers"

/-- The Query Classifier view of `analyze_business_request`: the ordered set
of categories its keyword branches select for a prompt, with the
no-match fallback `{revenue, product}` of lines 300-304. -/
def classifyCategories (user_prompt : String) : List Category :=
  let lower := pyLower user_prompt
  let cats :=
    (if anyKeyword revenueKeywords lower then [Category.revenue] else []) ++
    (if anyKeyword productKeywords lower then [Category.product] else []) ++
    (if anyKeyword customerKeywords lower then [Category.customer] else [])
  if cats = [] then [Category.revenue, Category.product] else cats

/-- Oracle for the external Data Provider: the bodies of
`execute_revenue_query`, `execute_product_query`, `execute_customer_query`
(database access). Arguments mirror the Python signatures
(`start_date`, `category`, `min_amount`); a raised exception is `.error` with
its message, a returned dict is `.ok` with an abstract payload `α`. -/
structure Provider (α : Type) where
  revenue : Option String → Except String α
  product : Option String → Option String → Except String α
  customer : Option String → Option Nat → Except String α

/-- The Aggregated Result dict built by `analyze_business_request`:
`{'request': ..., 'queries_executed': [...], 'data': {...}}`. The `data`
dict is an insertion-ordered association list. -/
structure AggResult (α : Type) where
  request : String
  queries_executed : List String
  data : List (String × α)
  deriving DecidableEq, Repr

/-- One keyword branch of `analyze_business_request`: if the condition held,
run the provider call and record the executed-query name and data entry;
a provider exception aborts (propagates). -/
def runCat {α : Type} (cond : Bool) (call : Except String α)
    (qname key : String) : Except String (List String × List (String × α)) :=
  if cond then
    match call with
    | .error e => .error e
    | .ok d => .ok ([qname], [(key, d)])
  else .ok ([], [])

/-- `analyze_business_request(user_prompt)` from
`src/lambda/query/query_agent_handler.py` lines 258-307: sequentially runs the
revenue, product and customer keyword branches (each calling the provider on
match, the customer branch with the `min_amount` heuristic), then the
general-overview fallback when no branch fired. A provider exception at any
point aborts the whole aggregation; the partially built dict is discarded. -/
def analyze_business_request {α : Type} (p : Provider α) (user_prompt : String) :
    Except String (AggResult α) :=
  match runCat (anyKeyword revenueKeywords (pyLower user_prompt))
      (p.revenue none) "revenue_summary" "revenue" with
  | .error e => .error e
  | .ok (ex1, d1) =>
    match runCat (anyKeyword productKeywords (pyLower user_prompt))
        (p.product none none) "product_sales" "products" with
    | .error e => .error e
    | .ok (ex2, d2) =>
      match runCat (anyKeyword customerKeywords (pyLower user_prompt))
          (p.customer none (extractMinAmount user_prompt)) "customer_orders" "customers" with
      | .error e => .error e
      | .ok (ex3, d3) =>
        if ex1 ++ ex2 ++ ex3 = [] then
          match p.revenue none with
          | .error e => .error e
          | .ok dr =>
            match p.product none none with
            | .error e => .error e
            | .ok dp =>
              .ok { request := user_prompt
                    queries_executed := ["revenue_summary", "product_sales"]
                    data := [("revenue", dr), ("products", dp)] }
        else
          .ok { request := user_prompt
                queries_executed := ex1 ++ ex2 ++ ex3
                data := d1 ++ d2 ++ d3 }

/-- `generate_business_insights(query_results, user_prompt)` from
`query_agent_handler.py` lines 309-401. The whole `try` body — API-key
lookup, model construction, prompt formatting and the analyst agent call —
is the external Narrative Generator, modelled by the oracle `nar`; `dump`
models `json.dumps(query_results, indent=2, default=str)`. A failure
anywhere in the `try` body lands in the `except` branch, which returns the
degradation text instead of raising. -/
def generate_business_insights {α : Type}
    (nar : AggResult α → String → Except String String)
    (dump : AggResult α → String)
    (query_results : AggResult α) (user_prompt : String) : String :=
  match nar query_results user_prompt with
  | .ok analysis => analysis
  | .error e =>
    "Data retrieved successfully, but analysis failed: " ++ e ++
      "\n\nRaw data: " ++ dump query_results

/-- A Content Block `{"type": "text", "text": ...}`. -/
structure ContentBlock where
  type : String
  text : String
  deriving DecidableEq, Repr

/-- The dict returned by `handle_tools_call`: a `content` list, plus the
`isError` key which is present (and `True`) only in the `except` branch. -/
structure ToolResult where
  content : List ContentBlock
  isError : Option Bool
  deriving DecidableEq, Repr

/-- A JSON-RPC `id` value as the handlers see it: `request.get("id")` maps an
omitted key to `None`, so the extracted correlator is `null`, a number or a
string. -/
inductive RId where
  | null
  | num (n : Int)
  | str (s : String)
  deriving DecidableEq, Repr

/-- A JSON-RPC response envelope: exactly one of `result` or
`error {code, message}`, plus the echoed `id`. -/
inductive RpcResponse (ρ : Type) where
  | success (result : ρ) (id : RId)
  | error (code : Int) (message : String) (id : RId)
  deriving DecidableEq, Repr

/-- The `id` field of a response, common to both constructors. -/
def RpcResponse.rid {ρ : Type} : RpcResponse ρ → RId
  | .success _ i => i
  | .error _ _ i => i

/-- Renders an optional tool/method name the way Python f-strings render it:
`None` when the key was absent. -/
def showOptName : Option String → String
  | none => "None"
  | some s => s

/-- The argument keys read by the query-variant tool branches
(`mcp_handler.py` lines 110, 123, 134-136, 148-150). An absent key is
`none`. -/
structure ToolArguments where
  query : Option String := none
  start_date : Option String := none
  category : Option String := none
  min_amount : Option Nat := none
  deriving DecidableEq, Repr

/-- `params` of a `tools/call` request: `params.get("name")` and
`params.get("arguments", {})`. -/
structure CallParams where
  name : Option String := none
  arguments : Option ToolArguments := none
  deriving DecidableEq, Repr

/-- A parsed JSON-RPC request as `process_request` reads it:
`request.get("method")`, `request.get("params", {})`, `request.get("id")`. -/
structure QRequest where
  method : Option String := none
  params : Option CallParams := none
  id : Option RId := none
  deriving DecidableEq, Repr

namespace Query

/-- `MCPServer.handle_tools_call(params)` from
`src/lambda/query/mcp_handler.py` lines 103-173. The four registered tool
branches run inside a `try`; any exception — including the
`ValueError("Unknown tool: ...")` raised by the final `else` — is caught and
rendered as a single `isError=True` Content Block whose text is
`"Error executing <name>: <message>"`. -/
def handle_tools_call {α : Type} (p : Provider α)
    (nar : AggResult α → String → Except String String)
    (dump : AggResult α → String) (dumpD : α → String)
    (params : CallParams) : ToolResult :=
  match
    (if params.name = some "query_business_data" then
      match analyze_business_request p
          (((params.arguments.getD {}).query).getD
            "Show me a business performance summary") with
      | .error e => .error e
      | .ok query_results =>
        .ok { content := [{ type := "text"
                            text := generate_business_insights nar dump query_results
                              (((params.arguments.getD {}).query).getD
                                "Show me a business performance summary") }]
              isError := none }
    else if params.name = some "get_revenue_summary" then
      match p.revenue (params.arguments.getD {}).start_date with
      | .error e => .error e
      | .ok d => .ok { content := [{ type := "text", text := dumpD d }], isError := none }
    else if params.name = some "get_product_performance" then
      match p.product (params.arguments.getD {}).start_date
          (params.arguments.getD {}).category with
      | .error e => .error e
      | .ok d => .ok { content := [{ type := "text", text := dumpD d }], isError := none }
    else if params.name = some "get_customer_orders" then
      match p.customer (params.arguments.getD {}).start_date
          (params.arguments.getD {}).min_amount with
      | .error e => .error e
      | .ok d => .ok { content := [{ type := "text", text := dumpD d }], isError := none }
    else
      (.error ("Unknown tool: " ++ showOptName params.name) :
        Except String ToolResult)) with
  | .ok res => res
  | .error e =>
    { content := [{ type := "text"
                    text := "Error executing " ++ showOptName params.name ++ ": " ++ e }]
      isError := some true }

/-- The `result` payloads of the query-variant `process_request`. The
`initialize` and `tools/list` payloads are the fixed dicts of
`handle_initialize` / `handle_tools_list`; no claim inspects them, so they
are abstract constructors here. -/
inductive QResult (α : Type) where
  | initRes
  | toolsList
  | toolCall (r : ToolResult)
  deriving DecidableEq, Repr

/-- `MCPServer.process_request(request)` from
`src/lambda/query/mcp_handler.py` lines 175-205: routes `initialize`,
`tools/list`, `tools/call`, raises on any other method, and turns the raised
exception into `{"error": {"code": -32603, "message": str(e)}}`; `id` is
echoed in both envelopes. `handle_tools_call` never raises, so the only
error path here is the unknown method. -/
def process_request {α : Type} (p : Provider α)
    (nar : AggResult α → String → Except String String)
    (dump : AggResult α → String) (dumpD : α → String)
    (req : QRequest) : RpcResponse (QResult α) :=
  if req.method = some "initialize" then
    .success .initRes (req.id.getD .null)
  else if req.method = some "tools/list" then
    .success .toolsList (req.id.getD .null)
  else if req.method = some "tools/call" then
    .success (.toolCall (handle_tools_call p nar dump dumpD (req.params.getD {})))
      (req.id.getD .null)
  else
    .error (-32603) ("Unknown method: " ++ showOptName req.method) (req.id.getD .null)

end Query

/-- `arguments` of the weather `tools/call` params; only `location` is read. -/
structure WArgs where
  location : Option String := none
  deriving DecidableEq, Repr

/-- `params` of a weather `tools/call` request. `arguments = none` models
the `"arguments"` key being absent (subscripting then raises `KeyError`). -/
structure WCallParams where
  name : Option String := none
  arguments : Option WArgs := none
  deriving DecidableEq, Repr

/-- A parsed JSON-RPC request for the weather variant. -/
structure WRequest where
  method : Option String := none
  params : Option WCallParams := none
  id : Option RId := none
  deriving DecidableEq, Repr

/-- The dict `{"response": response}` returned by
`_handle_weather_request`. -/
structure WToolResult where
  response : String
  deriving DecidableEq, Repr

/-- The `result` payloads of the weather-variant `process_request`. -/
inductive WQResult where
  | initRes
  | toolsList
  | toolCall (r : WToolResult)
  deriving DecidableEq, Repr

namespace Weather

/-- `MCPServer.handle_request(request)` plus `_handle_weather_request` from
`src/lambda/weather/mcp_handler.py` lines 27-41. `agent` is the external
weather agent (`weather_agent_handler.handler` applied to a prompt dict).
Neither function catches anything: an unknown tool raises
`ValueError("Unknown tool: ...")`, and `request["arguments"]["location"]`
raises `KeyError` (whose `str` is the quoted key) when a key is missing;
all of these propagate to `process_request`. -/
def handle_request (agent : String → String) (params : WCallParams) :
    Except String WToolResult :=
  if params.name = some "get_weather_forecast" then
    match params.arguments with
    | none => .error "\x27arguments\x27"
    | some args =>
      match args.location with
      | none => .error "\x27location\x27"
      | some location =>
        .ok { response := agent ("Get weather forecast for " ++ location) }
  else
    .error ("Unknown tool: " ++ showOptName params.name)

/-- `MCPServer.process_request(request)` from
`src/lambda/weather/mcp_handler.py` lines 60-90: same routing as the query
variant, but `tools/call` delegates to `handle_request`, whose exceptions
reach the `except` branch and become `{"error": {"code": -32603,
"message": str(e)}}`. -/
def process_request (agent : String → String) (req : WRequest) :
    RpcResponse WQResult :=
  if req.method = some "initialize" then
    .success .initRes (req.id.getD .null)
  else if req.method = some "tools/list" then
    .success .toolsList (req.id.getD .null)
  else if req.method = some "tools/call" then
    match handle_request agent (req.params.getD {}) with
    | .ok r => .success (.toolCall r) (req.id.getD .null)
    | .error e => .error (-32603) e (req.id.getD .null)
  else
    .error (-32603) ("Unknown method: " ++ showOptName req.method) (req.id.getD .null)

end Weather

/-- Whenever `analyze_business_request` returns a result, its
`queries_executed` list is exactly the classifier's category order rendered
through `Category.queryName`. -/
theorem analyze_ok_executed {α : Type} (p : Provider α) (t : String)
    (r : AggResult α) (h : analyze_business_request p t = .ok r) :
    r.queries_executed = (classifyCategories t).map Category.queryName := by
  unfold analyze_business_request runCat at h
  unfold classifyCategories
  cases h1 : anyKeyword revenueKeywords (pyLower t) <;>
  cases h2 : anyKeyword productKeywords (pyLower t) <;>
  cases h3 : anyKeyword customerKeywords (pyLower t) <;>
  cases hr : p.revenue none <;>
  cases hp : p.product none none <;>
  cases hc : p.customer none (extractMinAmount t) <;>
  simp_all [Category.queryName] <;> subst h <;> rfl

/-- The classifier never returns an empty category list: the no-match case
falls back to `{revenue, product}`. -/
theorem classify_ne_nil (t : String) : classifyCategories t ≠ [] := by
  unfold classifyCategories
  cases h1 : anyKeyword revenueKeywords (pyLower t) <;>
  cases h2 : anyKeyword productKeywords (pyLower t) <;>
  cases h3 : anyKeyword customerKeywords (pyLower t) <;>
  simp [h1, h2, h3]

/-- C4: if the customer category is selected and the amount heuristic
qualifies (raw text has a currency marker or lowercased text has "over"),
and both literal substrings "200" and "500" occur in the raw text, then
`min_amount` resolves to 200: the "200" check has first-match priority. -/
theorem C4_minAmount_first_match (t : String)
    (_hcust : anyKeyword customerKeywords (pyLower t) = true)
    (hqual : (substrOf "$" t || substrOf "over" (pyLower t)) = true)
    (h200 : substrOf "200" t = true)
    (_h500 : substrOf "500" t = true) :
    extractMinAmount t = some 200 := by
  unfold extractMinAmount
  simp [hqual, h200]

theorem C4_witness :
    (anyKeyword customerKeywords (pyLower "customer orders over $200 and $500") = true ∧
      substrOf "500" "customer orders over $200 and $500" = true) ∧
    extractMinAmount "customer orders over $200 and $500" = some 200 :=
  ⟨⟨by decide, by decide⟩,
    C4_minAmount_first_match "customer orders over $200 and $500"
      (by decide) (by decide) (by decide) (by decide)⟩

/-- C5: the four reference classifications. "Show me revenue trends" selects
exactly revenue; "top bestseller products" exactly product; "customer orders
over $500" exactly customer with min_amount 500; "hello" falls back to
revenue+product with no min_amount. -/
theorem C5_reference_examples :
    classifyCategories "Show me revenue trends" = [Category.revenue] ∧
    classifyCategories "top bestseller products" = [Category.product] ∧
    (classifyCategories "customer orders over $500" = [Category.customer] ∧
      extractMinAmount "customer orders over $500" = some 500) ∧
    (classifyCategories "hello" = [Category.revenue, Category.product] ∧
      extractMinAmount "hello" = none) := by
  exact ⟨by decide, by decide, ⟨by decide, by decide⟩, by decide, by decide⟩

/-- C6: whenever the aggregation completes, the `queries_executed` list has
exactly the classifier's selected categories, in rule-table order, and it is
never empty (the no-match case executes the two fallback queries). -/
theorem C6_executed_matches_classifier {α : Type} (p : Provider α) (t : String)
    (r : AggResult α) (h : analyze_business_request p t = .ok r) :
    r.queries_executed = (classifyCategories t).map Category.queryName ∧
    r.queries_executed ≠ [] := by
  have he := analyze_ok_executed p t r h
  refine ⟨he, ?_⟩
  rw [he]
  intro hnil
  exact classify_ne_nil t (List.map_eq_nil_iff.mp hnil)

theorem C6_witness :
    ({ request := "hello", queries_executed := ["revenue_summary", "product_sales"],
        data := [("revenue", (1 : Nat)), ("products", 2)] } : AggResult Nat).queries_executed =
      (classifyCategories "hello").map Category.queryName ∧
    ({ request := "hello", queries_executed := ["revenue_summary", "product_sales"],
        data := [("revenue", (1 : Nat)), ("products", 2)] } : AggResult Nat).queries_executed ≠ [] :=
  C6_executed_matches_classifier
    { revenue := fun _ => .ok 1, product := fun _ _ => .ok 2, customer := fun _ _ => .ok 3 }
    "hello" _ rfl

/-- C2: when the aggregation behind `query_business_data` fails (a provider
call raised during `analyze_business_request`), the tool call returns exactly
one `isError=True` Content Block whose text embeds the tool name and the
failure description; the block equals that single error block, so no
category data from provider calls that succeeded before the failure appears
anywhere in the response. -/
theorem C2_aggregation_failure_single_error_block {α : Type} (p : Provider α)
    (nar : AggResult α → String → Except String String)
    (dump : AggResult α → String) (dumpD : α → String)
    (params : CallParams) (e : String)
    (hname : params.name = some "query_business_data")
    (hfail : analyze_business_request p
        (((params.arguments.getD {}).query).getD
          "Show me a business performance summary") = .error e) :
    Query.handle_tools_call p nar dump dumpD params =
      { content := [{ type := "text"
                      text := "Error executing query_business_data: " ++ e }]
        isError := some true } := by
  unfold Query.handle_tools_call
  rw [hname, hfail]
  rfl

theorem C2_witness :
    Query.handle_tools_call
      { revenue := fun _ => Except.ok (1 : Nat), product := fun _ _ => Except.ok 2
        customer := fun _ _ => Except.error "db down" }
      (fun _ _ => Except.ok "insights") (fun _ => "agg") (fun _ => "d")
      { name := some "query_business_data"
        arguments := some { query := some "business orders" } } =
      { content := [{ type := "text"
                      text := "Error executing query_business_data: db down" }]
        isError := some true } := by
  exact C2_aggregation_failure_single_error_block
    { revenue := fun _ => Except.ok (1 : Nat), product := fun _ _ => Except.ok 2
      customer := fun _ _ => Except.error "db down" }
    (fun _ _ => Except.ok "insights") (fun _ => "agg") (fun _ => "d")
    { name := some "query_business_data"
      arguments := some { query := some "business orders" } }
    "db down" rfl rfl

/-- C3: when aggregation succeeds and the narrative generator then fails,
the `tools/call` still returns a success envelope whose single Content Block
is not error-flagged and whose text combines the degradation notice with
the raw aggregated data serialized as text. -/
theorem C3_narrative_degradation {α : Type} (p : Provider α)
    (nar : AggResult α → String → Except String String)
    (dump : AggResult α → String) (dumpD : α → String)
    (req : QRequest) (query : String) (r : AggResult α) (e : String)
    (hm : req.method = some "tools/call")
    (hname : ((req.params.getD {}).name) = some "query_business_data")
    (hq : ((((req.params.getD {}).arguments.getD {}).query).getD
        "Show me a business performance summary") = query)
    (hok : analyze_business_request p query = .ok r)
    (hnar : nar r query = .error e) :
    Query.process_request p nar dump dumpD req =
      .success (.toolCall
        { content := [{ type := "text"
                        text := "Data retrieved successfully, but analysis failed: " ++ e ++
                          "\n\nRaw data: " ++ dump r }]
          isError := none })
        (req.id.getD .null) := by
  unfold Query.process_request Query.handle_tools_call generate_business_insights
  rw [hm, hname, hq, hok]
  simp [hnar]

theorem C3_witness :
    Query.process_request
      { revenue := fun _ => Except.ok (7 : Nat), product := fun _ _ => Except.ok 8
        customer := fun _ _ => Except.ok 9 }
      (fun _ _ => Except.error "no api key") (fun r => r.request) (fun _ => "d")
      { method := some "tools/call"
        params := some { name := some "query_business_data"
                         arguments := some { query := some "revenue trends" } }
        id := some (RId.num 3) } =
      RpcResponse.success (Query.QResult.toolCall
        { content := [{ type := "text"
                        text := "Data retrieved successfully, but analysis failed: no api key\n\nRaw data: revenue trends" }]
          isError := none })
        (RId.num 3) := by
  exact C3_narrative_degradation
    { revenue := fun _ => Except.ok (7 : Nat), product := fun _ _ => Except.ok 8
      customer := fun _ _ => Except.ok 9 }
    (fun _ _ => Except.error "no api key") (fun r => r.request) (fun _ => "d")
    { method := some "tools/call"
      params := some { name := some "query_business_data"
                       arguments := some { query := some "revenue trends" } }
      id := some (RId.num 3) }
    "revenue trends"
    { request := "revenue trends", queries_executed := ["revenue_summary"]
      data := [("revenue", 7)] }
    "no api key" rfl rfl rfl rfl rfl

/-- C10: a `tools/call` of `query_business_data` with no `"query"` argument
uses the default prompt "Show me a business performance summary"; that prompt
classifies to exactly the revenue category, so the result is built from an
aggregation that executed only the revenue query — not the two-category
general-overview fallback. -/
theorem C10_default_prompt_revenue_only {α : Type} (p : Provider α)
    (nar : AggResult α → String → Except String String)
    (dump : AggResult α → String) (dumpD : α → String)
    (params : CallParams) (r : AggResult α)
    (hname : params.name = some "query_business_data")
    (hq : ((params.arguments.getD {}).query) = none)
    (hok : analyze_business_request p "Show me a business performance summary" = .ok r) :
    (classifyCategories "Show me a business performance summary" = [Category.revenue] ∧
      r.queries_executed = ["revenue_summary"]) ∧
    Query.handle_tools_call p nar dump dumpD params =
      { content := [{ type := "text"
                      text := generate_business_insights nar dump r
                        "Show me a business performance summary" }]
        isError := none } := by
  refine ⟨⟨by decide, ?_⟩, ?_⟩
  · have he := analyze_ok_executed p _ r hok
    rw [he]
    rfl
  · unfold Query.handle_tools_call
    rw [hname, hq]
    rw [show (none : Option String).getD "Show me a business performance summary" =
      "Show me a business performance summary" from rfl]
    rw [hok]
    rfl

theorem C10_witness :
    ((classifyCategories "Show me a business performance summary" = [Category.revenue] ∧
      ({ request := "Show me a business performance summary"
         queries_executed := ["revenue_summary"]
         data := [("revenue", (5 : Nat))] } : AggResult Nat).queries_executed =
        ["revenue_summary"]) ∧
    Query.handle_tools_call
      { revenue := fun _ => Except.ok (5 : Nat), product := fun _ _ => Except.ok 6
        customer := fun _ _ => Except.ok 7 }
      (fun _ _ => Except.ok "summary text") (fun _ => "agg") (fun _ => "d")
      { name := some "query_business_data", arguments := none } =
      { content := [{ type := "text", text := "summary text" }]
        isError := none }) := by
  have h := C10_default_prompt_revenue_only
    { revenue := fun _ => Except.ok (5 : Nat), product := fun _ _ => Except.ok 6
      customer := fun _ _ => Except.ok 7 }
    (fun _ _ => Except.ok "summary text") (fun _ => "agg") (fun _ => "d")
    { name := some "query_business_data", arguments := none }
    { request := "Show me a business performance summary"
      queries_executed := ["revenue_summary"]
      data := [("revenue", 5)] }
    rfl rfl rfl
  exact h

/-- C7: the inbound request `id` — null, a number such as 0, a string such
as "abc", or omitted (extracted as null) — is echoed back unchanged by
`process_request` of both dispatcher variants, in the success envelope and
in the error envelope alike: every branch stamps the same extracted id. -/
theorem C7_id_roundtrip {α : Type} (p : Provider α)
    (nar : AggResult α → String → Except String String)
    (dump : AggResult α → String) (dumpD : α → String)
    (req : QRequest) (agent : String → String) (wreq : WRequest) :
    (Query.process_request p nar dump dumpD req).rid = req.id.getD .null ∧
    (Weather.process_request agent wreq).rid = wreq.id.getD .null := by
  constructor
  · unfold Query.process_request
    split_ifs <;> rfl
  · unfold Weather.process_request
    split_ifs <;>
      first
        | rfl
        | (cases Weather.handle_request agent (wreq.params.getD {}) <;> rfl)

/-- C8: a weather `tools/call` with a supplied location forwards to the
external weather agent the synthesized instruction
"Get weather forecast for <location>" and returns the agent's text
unmodified, wrapped as the response payload. -/
theorem C8_location_forwarded (agent : String → String) (params : WCallParams)
    (a : WArgs) (loc : String)
    (hname : params.name = some "get_weather_forecast")
    (hargs : params.arguments = some a)
    (hloc : a.location = some loc) :
    Weather.handle_request agent params =
      .ok { response := agent ("Get weather forecast for " ++ loc) } := by
  unfold Weather.handle_request
  rw [hname, hargs]
  simp [hloc]

theorem C8_witness :
    Weather.handle_request (fun s => "forecast for: " ++ s)
      { name := some "get_weather_forecast"
        arguments := some { location := some "Berlin" } } =
      .ok { response := "forecast for: Get weather forecast for Berlin" } := by
  exact C8_location_forwarded (fun s => "forecast for: " ++ s)
    { name := some "get_weather_forecast"
      arguments := some { location := some "Berlin" } }
    { location := some "Berlin" } "Berlin" rfl rfl rfl

/-- C9: a weather `tools/call` naming `get_weather_forecast` whose params
lack the `"arguments"` mapping or the `"location"` key raises a `KeyError`
(whose text is the quoted missing key) that `process_request` converts into
a JSON-RPC protocol error with code -32603 — never into an
`isError` Content Block inside a success envelope. -/
theorem C9_missing_args_protocol_error (agent : String → String) (req : WRequest)
    (hm : req.method = some "tools/call")
    (hname : ((req.params.getD {}).name) = some "get_weather_forecast")
    (hloc : (((req.params.getD {}).arguments).map WArgs.location).getD none = none) :
    Weather.process_request agent req =
      .error (-32603)
        (match (req.params.getD {}).arguments with
          | none => "\x27arguments\x27"
          | some _ => "\x27location\x27")
        (req.id.getD .null) ∧
    ∀ res i2, Weather.process_request agent req ≠ RpcResponse.success res i2 := by
  have hmain : Weather.process_request agent req =
      .error (-32603)
        (match (req.params.getD {}).arguments with
          | none => "\x27arguments\x27"
          | some _ => "\x27location\x27")
        (req.id.getD .null) := by
    unfold Weather.process_request Weather.handle_request
    rw [hm, hname]
    cases harg : (req.params.getD {}).arguments with
    | none => simp
    | some a =>
      have ha : a.location = none := by
        rw [harg] at hloc
        simpa using hloc
      simp [ha]
  refine ⟨hmain, fun res i2 hc => ?_⟩
  rw [hmain] at hc
  simp at hc

theorem C9_witness :
    Weather.process_request (fun _ => "sunny")
      { method := some "tools/call"
        params := some { name := some "get_weather_forecast", arguments := none }
        id := some (RId.num 7) } =
      RpcResponse.error (-32603) "\x27arguments\x27" (RId.num 7) := by
  have h := C9_missing_args_protocol_error (fun _ => "sunny")
    { method := some "tools/call"
      params := some { name := some "get_weather_forecast", arguments := none }
      id := some (RId.num 7) } rfl rfl rfl
  exact h.1

/-- C1 (amended): the two dispatcher variants diverge on an unknown tool
name. The business-data variant returns a successful envelope carrying a
single `isError=True` Content Block whose text embeds
"Unknown tool: <name>" (as "Error executing <name>: Unknown tool: <name>");
the weather variant lets the `ValueError` escape `tools/call` handling and
returns a JSON-RPC protocol-level error with code -32603 and message
"Unknown tool: <name>". -/
theorem C1_unknown_tool_behavior {α : Type} (nm : String) (p : Provider α)
    (nar : AggResult α → String → Except String String)
    (dump : AggResult α → String) (dumpD : α → String)
    (argsq : Option ToolArguments) (i : Option RId)
    (agent : String → String) (argsw : Option WArgs) (j : Option RId)
    (h1 : nm ≠ "query_business_data") (h2 : nm ≠ "get_revenue_summary")
    (h3 : nm ≠ "get_product_performance") (h4 : nm ≠ "get_customer_orders")
    (h5 : nm ≠ "get_weather_forecast") :
    Query.process_request p nar dump dumpD
        { method := some "tools/call"
          params := some { name := some nm, arguments := argsq }
          id := i } =
      .success (.toolCall
        { content := [{ type := "text"
                        text := "Error executing " ++ nm ++ ": Unknown tool: " ++ nm }]
          isError := some true })
        (i.getD .null) ∧
    Weather.process_request agent
        { method := some "tools/call"
          params := some { name := some nm, arguments := argsw }
          id := j } =
      .error (-32603) ("Unknown tool: " ++ nm) (j.getD .null) := by
  constructor
  · unfold Query.process_request Query.handle_tools_call
    simp [showOptName, h1, h2, h3, h4]
    rw [String.append_assoc,
      show ((": " : String) ++ ("Unknown tool: " ++ nm)) = ": Unknown tool: " ++ nm from by
        rw [← String.append_assoc]; rfl,
      ← String.append_assoc]
  · unfold Weather.process_request Weather.handle_request
    simp [showOptName, h5]

theorem C1_witness :
    Query.process_request
      { revenue := fun _ => Except.ok (0 : Nat), product := fun _ _ => Except.ok 0
        customer := fun _ _ => Except.ok 0 }
      (fun _ _ => Except.ok "t") (fun _ => "t") (fun _ => "t")
      { method := some "tools/call"
        params := some { name := some "mystery_tool", arguments := none }
        id := some (RId.str "abc") } =
      RpcResponse.success (Query.QResult.toolCall
        { content := [{ type := "text"
                        text := "Error executing mystery_tool: Unknown tool: mystery_tool" }]
          isError := some true })
        (RId.str "abc") ∧
    Weather.process_request (fun _ => "t")
      { method := some "tools/call"
        params := some { name := some "mystery_tool", arguments := none }
        id := some RId.null } =
      RpcResponse.error (-32603) "Unknown tool: mystery_tool" RId.null := by
  exact C1_unknown_tool_behavior "mystery_tool"
    { revenue := fun _ => Except.ok (0 : Nat), product := fun _ _ => Except.ok 0
      customer := fun _ _ => Except.ok 0 }
    (fun _ _ => Except.ok "t") (fun _ => "t") (fun _ => "t")
    none (some (RId.str "abc")) (fun _ => "t") none (some RId.null)
    (by decide) (by decide) (by decide) (by decide) (by decide)

/-- C1 counterexample to the claim as stated: the weather dispatcher DOES
produce a protocol-level error for an unknown tool name — the response to
this concrete `tools/call` is the JSON-RPC error envelope, not a successful
envelope carrying an `isError` Content Block. -/
theorem C1_cex_weather_protocol_error :
    Weather.process_request (fun _ => "ok")
      { method := some "tools/call"
        params := some { name := some "nonexistent_tool", arguments := none }
        id := none } =
      RpcResponse.error (-32603) "Unknown tool: nonexistent_tool" RId.null ∧
    ¬ ∃ res i, Weather.process_request (fun _ => "ok")
        { method := some "tools/call"
          params := some { name := some "nonexistent_tool", arguments := none }
          id := none } =
        RpcResponse.success res i := by
  refine ⟨rfl, ?_⟩
  rintro ⟨res, i, h⟩
  rw [show Weather.process_request (fun _ => "ok")
      { method := some "tools/call"
        params := some { name := some "nonexistent_tool", arguments := none }
        id := none } =
      RpcResponse.error (-32603) "Unknown tool: nonexistent_tool" RId.null from rfl] at h
  simp at h
